import Mathlib

/-!
Shallow embedding of `PyTorch_Template/agent.py`: the `BaseAgent` training
wrapper (checkpoint save/load, network update, learning-rate update, loss
recording, train/validation step functions) and the `MyAgent` subclass stub.

External-library objects (tensors, optimizer, scheduler, tensorboard writers)
are modelled as explicit state records; their numeric internals (autodiff,
Adam moments, learning-rate decay arithmetic) are outside the repository and
are represented abstractly: side-effecting calls into them are recorded as
events in a trace.  The filesystem is an association list from paths to
checkpoint records.
-/

namespace PyTorchTemplate

/-- Python error signals that the agent code can raise. -/
inductive PyError where
  | notImplementedError : PyError
  | valueError : String → PyError
  deriving DecidableEq

/-- Modelled from the spec: `TrainClock` lives in `utils.py`, which is not
among the provided sources.  Per the spec it is a record of mutable counters
`epoch` and `step`, serialized to/from a checkpoint's embedded sub-record. -/
structure TrainClock where
  epoch : Nat
  step : Nat
  deriving DecidableEq

/-- Modelled from the spec: the clock sub-record embedded in a checkpoint. -/
structure ClockCheckpoint where
  epoch : Nat
  step : Nat
  deriving DecidableEq

/-- Modelled from the spec: serializing the clock into a checkpoint record. -/
def TrainClock.make_checkpoint (c : TrainClock) : ClockCheckpoint :=
  { epoch := c.epoch, step := c.step }

/-- Modelled from the spec: restoring the clock counters from a checkpoint. -/
def TrainClock.restore_checkpoint (_c : TrainClock) (ck : ClockCheckpoint) : TrainClock :=
  { epoch := ck.epoch, step := ck.step }

/-- Device residency of the network parameters. -/
inductive Device where
  | cuda : Device
  | cpu : Device
  deriving DecidableEq

/-- The two module modes toggled by `net.train()` / `net.eval()`. -/
inductive NetMode where
  | train : NetMode
  | eval : NetMode
  deriving DecidableEq

/-- The network: a parameter blob plus device residency and module mode.
Parameter contents are an abstract blob (`Int`); their numeric evolution is
owned by the external autodiff library and out of scope. -/
structure Net where
  params : Int
  device : Device
  mode : NetMode
  deriving DecidableEq

/-- `net.cpu()` relocates parameters to host memory (and returns the module). -/
def Net.cpu (n : Net) : Net := { n with device := Device.cpu }

/-- `net.cuda()` relocates parameters to device memory. -/
def Net.cuda (n : Net) : Net := { n with device := Device.cuda }

/-- `net.train()` puts the module in training mode. -/
def Net.train (n : Net) : Net := { n with mode := NetMode.train }

/-- `net.eval()` puts the module in evaluation mode. -/
def Net.eval (n : Net) : Net := { n with mode := NetMode.eval }

/-- `net.state_dict()` returns the parameter contents. -/
def Net.state_dict (n : Net) : Int := n.params

/-- `net.load_state_dict(sd)` copies parameter contents in place; device
residency and mode are untouched. -/
def Net.load_state_dict (n : Net) (sd : Int) : Net := { n with params := sd }

/-- The Adam optimizer as built by `set_optimizer`: its learning rate and an
abstract internal-state blob (moments etc., owned by the external library). -/
structure Optimizer where
  lr : ℚ
  state : Int
  deriving DecidableEq

/-- `optimizer.state_dict()`: the full serializable optimizer state. -/
def Optimizer.state_dict (o : Optimizer) : Optimizer := o

/-- `optimizer.load_state_dict(sd)` replaces the optimizer state wholesale. -/
def Optimizer.load_state_dict (_o : Optimizer) (sd : Optimizer) : Optimizer := sd

/-- The `StepLR` scheduler: its configured step size and its epoch counter. -/
structure Scheduler where
  step_size : Nat
  last_epoch : Int
  deriving DecidableEq

/-- Model of the external library's `StepLR.step`: called with an explicit
epoch argument it sets `last_epoch` to that argument; called with no argument
it increments `last_epoch` by one. -/
def Scheduler.step (s : Scheduler) (epoch : Option Int) : Scheduler :=
  match epoch with
  | none => { s with last_epoch := s.last_epoch + 1 }
  | some e => { s with last_epoch := e }

/-- `scheduler.state_dict()`: the full serializable scheduler state. -/
def Scheduler.state_dict (s : Scheduler) : Scheduler := s

/-- `scheduler.load_state_dict(sd)` replaces the scheduler state wholesale. -/
def Scheduler.load_state_dict (_s : Scheduler) (sd : Scheduler) : Scheduler := sd

/-- The record `torch.save` serializes: the four named sub-states. -/
structure Ckpt where
  clock : ClockCheckpoint
  model_state_dict : Int
  optimizer_state_dict : Optimizer
  scheduler_state_dict : Scheduler
  deriving DecidableEq

/-- One scalar written to a tensorboard writer by `add_scalar`. -/
structure ScalarEntry where
  tag : String
  value : ℚ
  global_step : Nat
  deriving DecidableEq

/-- `writer.add_scalar(tag, value, global_step)` appends one entry. -/
def add_scalar (tb : List ScalarEntry) (tag : String) (value : ℚ)
    (global_step : Nat) : List ScalarEntry :=
  tb ++ [{ tag := tag, value := value, global_step := global_step }]

/-- Side effects whose substance lives in external libraries, recorded as a
trace: gradient clearing, backpropagation of a scalar loss, one optimizer
step, parameter relocation, the disk write, and the console message. -/
inductive Event where
  | zeroGrad : Event
  | backward : ℚ → Event
  | optStep : Event
  | toCpu : Event
  | toCuda : Event
  | diskWrite : String → Event
  | consoleMsg : String → Event
  deriving DecidableEq

/-- The filesystem under `model_dir`: paths mapped to checkpoint records. -/
abbrev FS := List (String × Ckpt)

/-- `torch.save(record, path)`: the new file shadows any previous one at the
same path (lookup finds the most recent write first). -/
def fsWrite (fs : FS) (path : String) (c : Ckpt) : FS := (path, c) :: fs

/-- `os.path.join(d, f)` for a directory `d` with no trailing separator. -/
def joinPath (d f : String) : String := d ++ "/" ++ f

/-- Python string formatting of an optional string argument: `None` is
rendered as the literal text `None`. -/
def pyStrOpt : Option String → String
  | none => "None"
  | some s => s

/-- The agent: directories, clock, network, optimizer, scheduler, and the two
tensorboard writers, exactly the mutable attributes `__init__` installs. -/
structure BaseAgent where
  log_dir : String
  model_dir : String
  clock : TrainClock
  net : Net
  optimizer : Optimizer
  scheduler : Scheduler
  train_tb : List ScalarEntry
  val_tb : List ScalarEntry
  deriving DecidableEq

/-- The save path of `save_ckpt`: `model_dir/ckpt_epoch<epoch>.pth` when no
name is given, else `model_dir/<name>.pth` (agent.py lines 55-58). -/
def save_path (a : BaseAgent) (name : Option String) : String :=
  match name with
  | none => joinPath a.model_dir ("ckpt_epoch" ++ toString a.clock.epoch ++ ".pth")
  | some n => joinPath a.model_dir (n ++ ".pth")

/-- The name resolution of `load_ckpt` (agent.py line 78): `latest` is kept
as is, every other argument `name` (including `None`) becomes
`ckpt_epoch<name>`. -/
def load_name (name : Option String) : String :=
  if name = some "latest" then "latest" else "ckpt_epoch" ++ pyStrOpt name

/-- The load path of `load_ckpt` (agent.py line 79). -/
def load_path (a : BaseAgent) (name : Option String) : String :=
  joinPath a.model_dir (load_name name ++ ".pth")

/-- Result of `save_ckpt`: the mutated agent, the mutated filesystem, and the
trace of external side effects in call order. -/
structure SaveResult where
  agent : BaseAgent
  fs : FS
  events : List Event

/-- `save_ckpt` (agent.py lines 53-74): resolve the path, move the network to
host memory, serialize the four sub-states to the path, print, move the
network back to device memory.  The `DataParallel` branch saves the same
record from the wrapped module; the model has a single unwrapped module. -/
def BaseAgent.save_ckpt (a : BaseAgent) (fs : FS) (name : Option String) :
    SaveResult :=
  let path := save_path a name
  let netCpu := a.net.cpu
  let ckpt : Ckpt :=
    { clock := a.clock.make_checkpoint
      model_state_dict := netCpu.state_dict
      optimizer_state_dict := a.optimizer.state_dict
      scheduler_state_dict := a.scheduler.state_dict }
  { agent := { a with net := netCpu.cuda }
    fs := fsWrite fs path ckpt
    events := [Event.toCpu, Event.diskWrite path,
               Event.consoleMsg ("Checkpoint saved at " ++ path), Event.toCuda] }

/-- `load_ckpt` (agent.py lines 76-91): resolve the path, raise a `ValueError`
naming the path when the file is absent (before any mutation), otherwise
restore the four sub-states in place. -/
def BaseAgent.load_ckpt (a : BaseAgent) (fs : FS) (name : Option String) :
    Except PyError BaseAgent :=
  match fs.lookup (load_path a name) with
  | none => Except.error (PyError.valueError
      ("Checkpoint " ++ load_path a name ++ " not exists."))
  | some ckpt =>
      Except.ok { a with
        net := a.net.load_state_dict ckpt.model_state_dict
        optimizer := a.optimizer.load_state_dict ckpt.optimizer_state_dict
        scheduler := a.scheduler.load_state_dict ckpt.scheduler_state_dict
        clock := a.clock.restore_checkpoint ckpt.clock }

/-- `BaseAgent.build_net` (agent.py lines 40-42): raises `NotImplementedError`. -/
def BaseAgent.build_net {Config : Type} (_config : Config) : Except PyError Net :=
  Except.error PyError.notImplementedError

/-- `BaseAgent.forward` (agent.py lines 93-95): the body is `pass`, so the
call returns Python `None` and raises nothing. -/
def BaseAgent.forward {Data : Type} (_a : BaseAgent) (_data : Data) :
    Except PyError (Option Int) :=
  Except.ok none

/-- `BaseAgent.visualize_batch` (agent.py lines 139-141): raises
`NotImplementedError`. -/
def BaseAgent.visualize_batch {Data : Type} (_a : BaseAgent) (_data : Data) :
    Except PyError Unit :=
  Except.error PyError.notImplementedError

/-- `MyAgent.forward` (agent.py lines 150-161): every statement is commented
out and the body is `pass`, so the call returns `None` and raises nothing. -/
def MyAgent.forward {Data : Type} (_a : BaseAgent) (_data : Data) :
    Except PyError (Option Int) :=
  Except.ok none

/-- `sum(loss_dict.values())` over a loss dictionary in insertion order. -/
def sum_values (loss_dict : List (String × ℚ)) : ℚ :=
  (loss_dict.map Prod.snd).sum

/-- `update_network` (agent.py lines 97-102): sum the loss terms, clear
gradients, backpropagate the total, apply one optimizer step.  The numeric
effect of the three library calls is recorded in the trace. -/
def BaseAgent.update_network (a : BaseAgent) (loss_dict : List (String × ℚ)) :
    BaseAgent × List Event :=
  let loss := sum_values loss_dict
  (a, [Event.zeroGrad, Event.backward loss, Event.optStep])

/-- `update_learning_rate` (agent.py lines 104-107): log the learning rate of
the last (only) parameter group to the train writer keyed by the current
epoch, then call `scheduler.step` with the clock's epoch as explicit argument. -/
def BaseAgent.update_learning_rate (a : BaseAgent) : BaseAgent :=
  { a with
    train_tb := add_scalar a.train_tb "learning_rate" a.optimizer.lr a.clock.epoch
    scheduler := a.scheduler.step (some (a.clock.epoch : Int)) }

/-- `record_losses` (agent.py lines 109-115): extract scalars with `.item()`
and write one entry per key, keyed by the current step, to the train writer
when `mode == 'train'` and to the validation writer otherwise. -/
def BaseAgent.record_losses (a : BaseAgent) (loss_dict : List (String × ℚ))
    (mode : String) : BaseAgent :=
  let entries := loss_dict.map
    (fun kv => ScalarEntry.mk kv.1 kv.2 a.clock.step)
  if mode = "train" then { a with train_tb := a.train_tb ++ entries }
  else { a with val_tb := a.val_tb ++ entries }

/-- `train_func` (agent.py lines 117-126): set training mode, forward, update
the network, record losses under `'train'`.  The subclass's `forward` is the
parameter `fwd`, returning outputs and a loss dictionary as the spec demands. -/
def BaseAgent.train_func {Data Out : Type}
    (fwd : BaseAgent → Data → Out × List (String × ℚ))
    (a : BaseAgent) (data : Data) :
    BaseAgent × Out × List (String × ℚ) × List Event :=
  let a1 := { a with net := a.net.train }
  let r := fwd a1 data
  let u := a1.update_network r.2
  let a2 := u.1.record_losses r.2 "train"
  (a2, r.1, r.2, u.2)

/-- `val_func` (agent.py lines 128-137): set evaluation mode, forward under
`torch.no_grad()`, record losses under `'validation'`; no gradient or
optimizer call is made, so the trace is empty. -/
def BaseAgent.val_func {Data Out : Type}
    (fwd : BaseAgent → Data → Out × List (String × ℚ))
    (a : BaseAgent) (data : Data) :
    BaseAgent × Out × List (String × ℚ) × List Event :=
  let a1 := { a with net := a.net.eval }
  let r := fwd a1 data
  let a2 := a1.record_losses r.2 "validation"
  (a2, r.1, r.2, [])

/-- A concrete agent state used to instantiate witnesses. -/
def sampleAgent : BaseAgent :=
  { log_dir := "logs"
    model_dir := "models"
    clock := { epoch := 0, step := 0 }
    net := { params := 7, device := Device.cuda, mode := NetMode.train }
    optimizer := { lr := 1/1000, state := 3 }
    scheduler := { step_size := 10, last_epoch := 5 }
    train_tb := []
    val_tb := [] }

lemma lookup_fsWrite_same (fs : FS) (p : String) (c : Ckpt) :
    (fsWrite fs p c).lookup p = some c := by
  simp [fsWrite, List.lookup]

lemma lookup_fsWrite_ne (fs : FS) (p q : String) (c : Ckpt) (h : q ≠ p) :
    (fsWrite fs p c).lookup q = fs.lookup q := by
  have hb : (q == p) = false := beq_eq_false_iff_ne.mpr h
  simp [fsWrite, List.lookup, hb]

lemma load_ckpt_absent (a : BaseAgent) (fs : FS) (name : Option String)
    (h : fs.lookup (load_path a name) = none) :
    a.load_ckpt fs name =
      Except.error (PyError.valueError
        ("Checkpoint " ++ load_path a name ++ " not exists.")) := by
  unfold BaseAgent.load_ckpt
  rw [h]

/-- C1: for every agent state, saving a checkpoint with `save_ckpt` and then
loading it back with `load_ckpt` under a name that resolves to the same file
path restores the clock, optimizer, and scheduler sub-states to their pre-save
values. -/
theorem save_load_roundtrip (a : BaseAgent) (fs : FS) (sname lname : Option String)
    (h : load_path a lname = save_path a sname) :
    ∃ a2, BaseAgent.load_ckpt (a.save_ckpt fs sname).agent (a.save_ckpt fs sname).fs lname
        = Except.ok a2
      ∧ a2.clock = a.clock
      ∧ a2.optimizer = a.optimizer
      ∧ a2.scheduler = a.scheduler := by
  have hpath : load_path (a.save_ckpt fs sname).agent lname = save_path a sname := h
  have hlook : ((a.save_ckpt fs sname).fs).lookup
        (load_path (a.save_ckpt fs sname).agent lname)
      = some { clock := a.clock.make_checkpoint
               model_state_dict := a.net.cpu.state_dict
               optimizer_state_dict := a.optimizer.state_dict
               scheduler_state_dict := a.scheduler.state_dict } := by
    rw [hpath]
    exact lookup_fsWrite_same fs (save_path a sname) _
  refine ⟨{ (a.save_ckpt fs sname).agent with
      net := (a.save_ckpt fs sname).agent.net.load_state_dict a.net.cpu.state_dict
      optimizer := a.optimizer
      scheduler := a.scheduler
      clock := a.clock }, ?_, rfl, rfl, rfl⟩
  unfold BaseAgent.load_ckpt
  rw [hlook]
  rfl

/-- C1 witness: at a concrete agent, saving under the explicit name `latest`
and loading under `latest` resolves the same path and restores the clock,
optimizer, and scheduler sub-states. -/
theorem save_load_roundtrip_witness :
    ∃ a2, BaseAgent.load_ckpt (sampleAgent.save_ckpt [] (some "latest")).agent
        (sampleAgent.save_ckpt [] (some "latest")).fs (some "latest")
        = Except.ok a2
      ∧ a2.clock = sampleAgent.clock
      ∧ a2.optimizer = sampleAgent.optimizer
      ∧ a2.scheduler = sampleAgent.scheduler :=
  save_load_roundtrip sampleAgent [] (some "latest") (some "latest") rfl

/-- C3: for every name whose resolved checkpoint file path does not exist,
`load_ckpt` returns a `ValueError` whose message names the missing path;
the error propagates (no `ok` result), and since the existence check precedes
every assignment, the agent state is returned to the caller unchanged. -/
theorem load_ckpt_missing_raises (a : BaseAgent) (fs : FS) (name : Option String)
    (h : fs.lookup (load_path a name) = none) :
    a.load_ckpt fs name =
      Except.error (PyError.valueError
        ("Checkpoint " ++ load_path a name ++ " not exists.")) :=
  load_ckpt_absent a fs name h

/-- C3 witness: loading the name `latest` from an empty model directory fails
with the documented `ValueError` naming `models/latest.pth`. -/
theorem load_ckpt_missing_raises_witness :
    sampleAgent.load_ckpt [] (some "latest") =
      Except.error (PyError.valueError
        ("Checkpoint " ++ load_path sampleAgent (some "latest") ++ " not exists.")) :=
  load_ckpt_missing_raises sampleAgent [] (some "latest") rfl

/-- C10: `load_ckpt` with no argument resolves the literal path
`<model_dir>/ckpt_epochNone.pth`, and when no file of that literal name
exists it fails with the missing-path `ValueError`. -/
theorem load_ckpt_default_none (a : BaseAgent) (fs : FS)
    (h : fs.lookup (joinPath a.model_dir "ckpt_epochNone.pth") = none) :
    load_path a none = joinPath a.model_dir "ckpt_epochNone.pth" ∧
    a.load_ckpt fs none =
      Except.error (PyError.valueError
        ("Checkpoint " ++ joinPath a.model_dir "ckpt_epochNone.pth" ++ " not exists.")) := by
  have hp : load_path a none = joinPath a.model_dir "ckpt_epochNone.pth" := rfl
  refine ⟨hp, ?_⟩
  rw [← hp] at h ⊢
  exact load_ckpt_absent a fs none h

/-- C10 witness: at a concrete agent with an empty model directory, the
no-argument load resolves `models/ckpt_epochNone.pth` and fails. -/
theorem load_ckpt_default_none_witness :
    load_path sampleAgent none = joinPath sampleAgent.model_dir "ckpt_epochNone.pth" ∧
    sampleAgent.load_ckpt [] none =
      Except.error (PyError.valueError
        ("Checkpoint " ++ joinPath sampleAgent.model_dir "ckpt_epochNone.pth"
          ++ " not exists.")) :=
  load_ckpt_default_none sampleAgent [] rfl

/-- C2 counterexample: invoking the unoverridden `forward` (body `pass`, in
`MyAgent` as in `BaseAgent`) returns `None` and does not fail with a
not-implemented signal, refuting the claim for the abstract method `forward`. -/
theorem forward_pass_no_signal :
    MyAgent.forward sampleAgent (0 : Int) = Except.ok none ∧
    MyAgent.forward sampleAgent (0 : Int)
      ≠ Except.error PyError.notImplementedError :=
  ⟨rfl, fun hcontra => Except.noConfusion hcontra⟩

/-- C2 amended: `build_net` and `visualize_batch` fail with
`NotImplementedError` whenever invoked unoverridden, but `forward` — abstract
with body `pass` in both `BaseAgent` and `MyAgent` — returns `None` and raises
nothing. -/
theorem abstract_methods_amended :
    (∀ (c : Int), BaseAgent.build_net c = Except.error PyError.notImplementedError) ∧
    (∀ (a : BaseAgent) (d : Int),
      a.visualize_batch d = Except.error PyError.notImplementedError) ∧
    (∀ (a : BaseAgent) (d : Int), a.forward d = Except.ok none) ∧
    (∀ (a : BaseAgent) (d : Int), MyAgent.forward a d = Except.ok none) :=
  ⟨fun _ => rfl, fun _ _ => rfl, fun _ _ => rfl, fun _ _ => rfl⟩

/-- C4 counterexample: at an agent whose scheduler counter is 5 while the
clock's epoch is 0, `update_learning_rate` leaves the scheduler at epoch 0,
not 6, refuting that every call advances the scheduler by exactly one epoch
relative to its state before the call. -/
theorem update_learning_rate_not_one_epoch :
    ¬ ((sampleAgent.update_learning_rate).scheduler.last_epoch
        = sampleAgent.scheduler.last_epoch + 1) := by
  decide

/-- C4 amended: every call to `update_learning_rate` appends the optimizer's
current learning rate to the train writer keyed by the current epoch, and sets
the scheduler's epoch counter to the clock's current epoch (passed as the
explicit argument of `scheduler.step`); this advances the scheduler by exactly
one epoch only when the clock's epoch equals the scheduler's previous counter
plus one.  Optimizer and validation writer are untouched. -/
theorem update_learning_rate_spec (a : BaseAgent) :
    (a.update_learning_rate).train_tb
      = a.train_tb ++ [{ tag := "learning_rate", value := a.optimizer.lr,
                         global_step := a.clock.epoch }] ∧
    (a.update_learning_rate).scheduler.last_epoch = (a.clock.epoch : Int) ∧
    (a.update_learning_rate).scheduler.step_size = a.scheduler.step_size ∧
    (a.update_learning_rate).optimizer = a.optimizer ∧
    (a.update_learning_rate).val_tb = a.val_tb ∧
    (a.update_learning_rate).clock = a.clock :=
  ⟨rfl, rfl, rfl, rfl, rfl, rfl⟩

/-- C5: `update_network` clears gradients, backpropagates the sum of all loss
term values, and applies exactly one optimizer step, in that order; on the
dictionary mapping a to 1.0 and b to 2.0, the backpropagated total is 3.0 and
exactly one optimizer step occurs. -/
theorem update_network_spec (a : BaseAgent) (loss_dict : List (String × ℚ)) :
    (a.update_network loss_dict).2
      = [Event.zeroGrad, Event.backward (sum_values loss_dict), Event.optStep] ∧
    (a.update_network loss_dict).2.count Event.optStep = 1 ∧
    (sampleAgent.update_network [("a", (1 : ℚ)), ("b", 2)]).2
      = [Event.zeroGrad, Event.backward 3, Event.optStep] := by
  refine ⟨rfl, ?_, ?_⟩
  · simp [BaseAgent.update_network, List.count_cons]
  · have h3 : sum_values [("a", (1 : ℚ)), ("b", 2)] = 3 := by
      norm_num [sum_values]
    show [Event.zeroGrad, Event.backward (sum_values [("a", (1 : ℚ)), ("b", 2)]),
          Event.optStep] = _
    rw [h3]

/-- C6: after `train_func` the network is in training mode; after `val_func`
the network is in evaluation mode, the event trace is empty (no gradient
clearing, no backpropagation, no optimizer step), and the network parameters,
device and optimizer are unchanged. -/
theorem train_val_mode_frame {Data Out : Type}
    (fwd : BaseAgent → Data → Out × List (String × ℚ))
    (a : BaseAgent) (d : Data) :
    (BaseAgent.train_func fwd a d).1.net.mode = NetMode.train ∧
    (BaseAgent.val_func fwd a d).1.net.mode = NetMode.eval ∧
    (BaseAgent.val_func fwd a d).2.2.2 = ([] : List Event) ∧
    (BaseAgent.val_func fwd a d).1.net.params = a.net.params ∧
    (BaseAgent.val_func fwd a d).1.net.device = a.net.device ∧
    (BaseAgent.val_func fwd a d).1.optimizer = a.optimizer :=
  ⟨rfl, rfl, rfl, rfl, rfl, rfl⟩

/-- C7: `save_ckpt` moves the parameters to host memory, writes the record
with the clock, model parameter, optimizer, and scheduler sub-states to the
path derived from the name or the current epoch, prints, and then restores
the parameters to device memory, so for an agent resident on the device the
residency after the save equals the residency before it. -/
theorem save_ckpt_residency (a : BaseAgent) (fs : FS) (name : Option String)
    (h : a.net.device = Device.cuda) :
    (a.save_ckpt fs name).events
      = [Event.toCpu, Event.diskWrite (save_path a name),
         Event.consoleMsg ("Checkpoint saved at " ++ save_path a name),
         Event.toCuda] ∧
    (a.save_ckpt fs name).fs.lookup (save_path a name)
      = some { clock := a.clock.make_checkpoint
               model_state_dict := a.net.params
               optimizer_state_dict := a.optimizer
               scheduler_state_dict := a.scheduler } ∧
    (a.save_ckpt fs name).agent.net.device = Device.cuda ∧
    (a.save_ckpt fs name).agent.net.device = a.net.device := by
  refine ⟨rfl, ?_, rfl, ?_⟩
  · exact lookup_fsWrite_same fs (save_path a name) _
  · rw [h]
    rfl

/-- C7 witness: at a concrete device-resident agent, saving with the default
name writes the four sub-states at `models/ckpt_epoch0.pth` and ends with the
parameters back on the device, matching the pre-save residency. -/
theorem save_ckpt_residency_witness :
    (sampleAgent.save_ckpt [] none).events
      = [Event.toCpu, Event.diskWrite (save_path sampleAgent none),
         Event.consoleMsg ("Checkpoint saved at " ++ save_path sampleAgent none),
         Event.toCuda] ∧
    (sampleAgent.save_ckpt [] none).fs.lookup (save_path sampleAgent none)
      = some { clock := sampleAgent.clock.make_checkpoint
               model_state_dict := sampleAgent.net.params
               optimizer_state_dict := sampleAgent.optimizer
               scheduler_state_dict := sampleAgent.scheduler } ∧
    (sampleAgent.save_ckpt [] none).agent.net.device = Device.cuda ∧
    (sampleAgent.save_ckpt [] none).agent.net.device = sampleAgent.net.device :=
  save_ckpt_residency sampleAgent [] none rfl

/-- C8: `record_losses` appends exactly one scalar entry per key of the loss
dictionary, keyed by the current step counter, to the train writer under mode
`train` and to the validation writer under mode `validation`, leaving the
other writer untouched; when the keys are distinct each key receives exactly
one entry. -/
theorem record_losses_per_key (a : BaseAgent) (loss_dict : List (String × ℚ)) :
    (a.record_losses loss_dict "train").train_tb
      = a.train_tb ++ loss_dict.map
          (fun kv => ScalarEntry.mk kv.1 kv.2 a.clock.step) ∧
    (a.record_losses loss_dict "train").val_tb = a.val_tb ∧
    (a.record_losses loss_dict "validation").val_tb
      = a.val_tb ++ loss_dict.map
          (fun kv => ScalarEntry.mk kv.1 kv.2 a.clock.step) ∧
    (a.record_losses loss_dict "validation").train_tb = a.train_tb ∧
    ((loss_dict.map Prod.fst).Nodup →
      ∀ k ∈ loss_dict.map Prod.fst,
        (loss_dict.map (fun kv => ScalarEntry.mk kv.1 kv.2 a.clock.step)).countP
          (fun e => e.tag == k) = 1) := by
  refine ⟨rfl, rfl, rfl, rfl, ?_⟩
  intro hnd k hk
  have hmap : (loss_dict.map (fun kv => ScalarEntry.mk kv.1 kv.2 a.clock.step)).countP
      (fun e => e.tag == k) = (loss_dict.map Prod.fst).count k := by
    rw [List.countP_map, List.count, List.countP_map]
    rfl
  rw [hmap]
  exact List.count_eq_one_of_mem hnd hk

/-- C8 witness: on the two-key dictionary mapping a to 1.0 and b to 2.0 at a
concrete agent, the entries land on the train writer keyed by the step
counter and the key a receives exactly one entry. -/
theorem record_losses_per_key_witness :
    (sampleAgent.record_losses [("a", (1 : ℚ)), ("b", 2)] "train").train_tb
      = sampleAgent.train_tb ++ [("a", (1 : ℚ)), ("b", 2)].map
          (fun kv => ScalarEntry.mk kv.1 kv.2 sampleAgent.clock.step) ∧
    ([("a", (1 : ℚ)), ("b", 2)].map
        (fun kv => ScalarEntry.mk kv.1 kv.2 sampleAgent.clock.step)).countP
      (fun e => e.tag == "a") = 1 :=
  ⟨(record_losses_per_key sampleAgent [("a", 1), ("b", 2)]).1,
   (record_losses_per_key sampleAgent [("a", 1), ("b", 2)]).2.2.2.2
     (by decide) "a" (by decide)⟩

/-- C9: for an explicit name, `save_ckpt` writes `<model_dir>/<name>.pth`
while `load_ckpt` (for a name other than `latest`) reads
`<model_dir>/ckpt_epoch<name>.pth`; for any name other than `latest` the two
paths differ, while for `latest` they coincide and the epoch-derived default
save matches a load under the epoch's decimal name; hence a save under an
explicit non-`latest` name followed by a load under the same name (with no
stale file at the load path) fails with the missing-path error. -/
theorem save_load_path_mismatch (a : BaseAgent) (fs : FS) (name : String)
    (hname : name ≠ "latest")
    (hfs : fs.lookup (load_path a (some name)) = none) :
    save_path a (some name) = joinPath a.model_dir (name ++ ".pth") ∧
    load_path a (some name)
      = joinPath a.model_dir ("ckpt_epoch" ++ name ++ ".pth") ∧
    save_path a (some name) ≠ load_path a (some name) ∧
    load_path a (some "latest") = save_path a (some "latest") ∧
    (toString a.clock.epoch ≠ "latest" →
      load_path a (some (toString a.clock.epoch)) = save_path a none) ∧
    BaseAgent.load_ckpt (a.save_ckpt fs (some name)).agent
        (a.save_ckpt fs (some name)).fs (some name)
      = Except.error (PyError.valueError
          ("Checkpoint " ++ load_path a (some name) ++ " not exists.")) := by
  have hln : load_name (some name) = "ckpt_epoch" ++ name := by
    unfold load_name
    rw [if_neg (by simpa using hname)]
    rfl
  have hload : load_path a (some name)
      = joinPath a.model_dir ("ckpt_epoch" ++ name ++ ".pth") := by
    unfold load_path
    rw [hln]
  have hne : save_path a (some name) ≠ load_path a (some name) := by
    rw [hload]
    intro heq
    have hlen := congrArg String.length heq
    simp only [save_path, joinPath, String.length_append] at hlen
    have h10 : ("ckpt_epoch" : String).length = 10 := rfl
    omega
  refine ⟨rfl, hload, hne, rfl, ?_, ?_⟩
  · intro hts
    unfold load_path load_name save_path
    rw [if_neg (by simpa using hts)]
    rfl
  · have hpath : load_path (a.save_ckpt fs (some name)).agent (some name)
        = load_path a (some name) := rfl
    have hfs2 : (a.save_ckpt fs (some name)).fs
        = fsWrite fs (save_path a (some name))
          { clock := a.clock.make_checkpoint
            model_state_dict := a.net.cpu.state_dict
            optimizer_state_dict := a.optimizer.state_dict
            scheduler_state_dict := a.scheduler.state_dict } := rfl
    have hlook : ((a.save_ckpt fs (some name)).fs).lookup
        (load_path (a.save_ckpt fs (some name)).agent (some name)) = none := by
      rw [hpath, hfs2,
        lookup_fsWrite_ne fs (save_path a (some name)) _ _ (fun hq => hne hq.symm)]
      exact hfs
    exact load_ckpt_absent (a.save_ckpt fs (some name)).agent
      (a.save_ckpt fs (some name)).fs (some name) hlook

/-- C9 witness: at a concrete agent with an empty model directory, saving
under the explicit name `best` writes `models/best.pth`, a load under `best`
resolves `models/ckpt_epochbest.pth`, the two differ, and the load after the
save fails with the missing-path error. -/
theorem save_load_path_mismatch_witness :
    save_path sampleAgent (some "best")
      = joinPath sampleAgent.model_dir ("best" ++ ".pth") ∧
    load_path sampleAgent (some "best")
      = joinPath sampleAgent.model_dir ("ckpt_epoch" ++ "best" ++ ".pth") ∧
    save_path sampleAgent (some "best") ≠ load_path sampleAgent (some "best") ∧
    load_path sampleAgent (some "latest") = save_path sampleAgent (some "latest") ∧
    (toString sampleAgent.clock.epoch ≠ "latest" →
      load_path sampleAgent (some (toString sampleAgent.clock.epoch))
        = save_path sampleAgent none) ∧
    BaseAgent.load_ckpt (sampleAgent.save_ckpt [] (some "best")).agent
        (sampleAgent.save_ckpt [] (some "best")).fs (some "best")
      = Except.error (PyError.valueError
          ("Checkpoint " ++ load_path sampleAgent (some "best") ++ " not exists.")) :=
  save_load_path_mismatch sampleAgent [] "best" (by decide) rfl

end PyTorchTemplate
